import Mathlib

/-!
Shallow embedding of the classification pipeline of the BankUserSentiment
repository (`src/data_processor.py`, `src/insights_generator.py`).

Texts are modelled as `Option String` (`none` stands for a missing/NaN cell).
The bank regular expressions used by the source are all of a very simple
shape — literal characters, `\s*` gaps and an optional trailing `\.?` — so
they are embedded as token lists with an executable matcher that mirrors
Python `re.search` / `re.findall` semantics on that fragment.  The external
VADER lexicon scorer is modelled as an optional oracle `Option (String → ℚ)`
(the source stores it in `self.sia`, possibly `None`), and the outcome of the
optional OpenAI adjudication call as an `Option (String × ℚ)` (`none` stands
for an exception anywhere in the call, `some r` for an accepted parsed
response).
-/

/-- Python `\s` whitespace class (ASCII part, which is all the source data uses). -/
def isPySpace (c : Char) : Bool :=
  c = ' ' || c = '\t' || c = '\n' || c = '\r' || c = Char.ofNat 11 || c = Char.ofNat 12

/-- A token of the tiny regex fragment used by `bank_patterns`:
a literal character, a `\s*` gap, or an optional trailing literal dot `\.?`. -/
inductive Tok where
  | lit (c : Char)
  | gap
  | optDot
deriving DecidableEq

/-- Literal tokens of a string. -/
def lits (s : String) : List Tok := s.data.map Tok.lit

/-- Match a token pattern at the start of `s`; returns the number of consumed
characters.  `gap` consumes the maximal whitespace run (in every source
pattern the token after a gap is a non-whitespace literal, so maximal munch
agrees with Python's backtracking); `optDot` is greedy with backtracking. -/
def matchLen : List Tok → List Char → Option Nat
  | [], _ => some 0
  | Tok.lit _ :: _, [] => none
  | Tok.lit c :: p, d :: s => if d = c then (matchLen p s).map (· + 1) else none
  | Tok.gap :: p, s =>
      let w := (s.takeWhile isPySpace).length
      (matchLen p (s.drop w)).map (· + w)
  | Tok.optDot :: p, '.' :: s =>
      match matchLen p s with
      | some n => some (n + 1)
      | none => matchLen p ('.' :: s)
  | Tok.optDot :: p, s => matchLen p s

/-- Python `re.search`: does the pattern match at some position of `s`? -/
def searchb (p : List Tok) : List Char → Bool
  | [] => (matchLen p []).isSome
  | c :: s => (matchLen p (c :: s)).isSome || searchb p s

/-- Fuel-driven scan for `countMatches` (fuel is structural so the kernel
can evaluate it; every step shortens the text, so `length + 1` fuel always
suffices). -/
def countMatchesFuel : Nat → List Tok → List Char → Nat
  | _, p, [] => if (matchLen p []).isSome then 1 else 0
  | 0, _, _ => 0
  | fuel + 1, p, c :: s =>
    match matchLen p (c :: s) with
    | some 0 => 1 + countMatchesFuel fuel p s
    | some (n + 1) => 1 + countMatchesFuel fuel p (s.drop n)
    | none => countMatchesFuel fuel p s

/-- Python `len(re.findall ...)`: number of non-overlapping matches, scanning
left to right and resuming after each match (advancing one position after an
empty match, which never occurs for the source's patterns). -/
def countMatches (p : List Tok) (s : List Char) : Nat :=
  countMatchesFuel (s.length + 1) p s

/-- Tests whether `needle` is a prefix of `haystack` (as character lists). -/
def listStartsWith : List Char → List Char → Bool
  | [], _ => true
  | _ :: _, [] => false
  | a :: n, b :: h => a = b && listStartsWith n h

/-- Python substring containment `needle in haystack`. -/
def containsSub (n : List Char) : List Char → Bool
  | [] => listStartsWith n []
  | c :: h => listStartsWith n (c :: h) || containsSub n h

/-- Python `str.lower()` (ASCII, which is all the source data uses). -/
def lowerChars (s : List Char) : List Char := s.map Char.toLower

/-! ### The bank pattern table (`DataProcessor.__init__`) -/

def prime_patterns : List (List Tok) :=
  [lits "prime" ++ [Tok.gap] ++ lits "bank",
   lits "primebank",
   lits "@primebank",
   lits "prime" ++ [Tok.gap] ++ [Tok.lit 'b', Tok.optDot]]

def eastern_patterns : List (List Tok) :=
  [lits "eastern" ++ [Tok.gap] ++ lits "bank", lits "ebl", lits "@easternbank"]

def brac_patterns : List (List Tok) :=
  [lits "brac" ++ [Tok.gap] ++ lits "bank", lits "@bracbank"]

def city_patterns : List (List Tok) :=
  [lits "city" ++ [Tok.gap] ++ lits "bank", lits "@citybank"]

def dutch_patterns : List (List Tok) :=
  [lits "dutch" ++ [Tok.gap] ++ lits "bangla", lits "dbbl", lits "@dutchbangla"]

/-- The table `self.bank_patterns`, in dict insertion order. -/
def bank_patterns : List (String × List (List Tok)) :=
  [("prime_bank", prime_patterns), ("eastern_bank", eastern_patterns),
   ("brac_bank", brac_patterns), ("city_bank", city_patterns),
   ("dutch_bangla", dutch_patterns)]

/-- The known entity names, in table order. -/
def bank_list : List String :=
  ["prime_bank", "eastern_bank", "brac_bank", "city_bank", "dutch_bangla"]

/-- Does any pattern of the set match somewhere in the (lowered) text? -/
def bankMatches (pats : List (List Tok)) (low : List Char) : Bool :=
  pats.any (fun p => searchb p low)

/-- Banks whose pattern set matches, in table order
(the inner `for pattern ... break` loop of the source is an any-match). -/
def mentionedBanks (low : List Char) : List String :=
  bank_patterns.filterMap (fun bp => if bankMatches bp.2 low then some bp.1 else none)

/-- Embeds `DataProcessor.identify_bank`. -/
def identify_bank : Option String → String × List String
  | none => ("none", [])
  | some t =>
    match mentionedBanks (lowerChars t.data) with
    | [] => ("none", [])
    | [b] => (b, [b])
    | bs => ("multiple", bs)

/-- Dict lookup `self.bank_patterns[bank]`. -/
def lookupPatterns (bank : String) : Option (List (List Tok)) :=
  (bank_patterns.find? (fun bp => bp.1 = bank)).map (fun bp => bp.2)

/-- Embeds `DataProcessor.count_bank_mentions`. -/
def count_bank_mentions (text : Option String) (bank : String) : Nat :=
  match text with
  | none => 0
  | some t =>
    match lookupPatterns bank with
    | none => 0
    | some pats => (pats.map (fun p => countMatches p (lowerChars t.data))).sum

/-! ### Sentiment engine (`DataProcessor.analyze_sentiment`) -/

/-- The complaint-indicator words of the adjudication trigger. -/
def complaint_words : List (List Char) :=
  ["complaint".data, "problem".data, "issue".data, "error".data, "failed".data,
   "not working".data, "terrible".data, "worst".data, "pathetic".data,
   "disappointed".data]

/-- The trigger `is_complaint`: any complaint-indicator word occurs in the lowered text. -/
def isComplaintText (t : String) : Bool :=
  complaint_words.any (fun w => containsSub w (lowerChars t.data))

/-- The check `str(text).strip() == ''` : the text is all whitespace. -/
def isBlankText (t : String) : Bool := t.data.all isPySpace

/-- Threshold mapping of the VADER compound score (`±0.05`). -/
def vaderLabel (c : ℚ) : String :=
  if c ≥ 1/20 then "Positive" else if c ≤ -(1/20) then "Negative" else "Neutral"

/-- Step 1 of `analyze_sentiment`: the VADER pass.  With no analyzer
(`self.sia is None`) the initial values `('Neutral', 0.0)` stand. -/
def vaderBaseline (sia : Option (String → ℚ)) (t : String) : String × ℚ :=
  match sia with
  | none => ("Neutral", 0)
  | some f => (vaderLabel (f t), f t)

/-- Embeds `DataProcessor.analyze_sentiment`.  Here `sia` is the optional VADER oracle,
`useGpt` is `self.use_gpt`, and `gptResult` is the outcome of the OpenAI
call on this text: `none` when any part of the call raises (the `except`
branch), `some (label, polarity)` when the parsed response is accepted. -/
def analyze_sentiment (sia : Option (String → ℚ)) (useGpt : Bool)
    (gptResult : Option (String × ℚ)) : Option String → String × ℚ
  | none => ("Neutral", 0)
  | some t =>
    if isBlankText t then ("Neutral", 0)
    else
      let base := vaderBaseline sia t
      if useGpt && (isComplaintText t || base.1 == "Neutral") then
        match gptResult with
        | some r => r
        | none => base
      else base

/-- The baseline lexicon result: `analyze_sentiment` with stage 2 cut off. -/
def baselineResult (sia : Option (String → ℚ)) : Option String → String × ℚ
  | none => ("Neutral", 0)
  | some t => if isBlankText t then ("Neutral", 0) else vaderBaseline sia t

/-! ### Emotion classifier (`DataProcessor.detect_emotion`) -/

/-- ASCII apostrophe. -/
def apos : Char := Char.ofNat 39

def joy_keywords : List (List Char) :=
  ["happy".data, "excellent".data, "amazing".data, "great".data, "wonderful".data,
   "fantastic".data, "love".data, "best".data, "thank you".data, "appreciate".data]

def frustration_keywords : List (List Char) :=
  ["frustrated".data, "angry".data, "terrible".data, "horrible".data, "worst".data,
   "hate".data, "annoyed".data, "disappointed".data, "pathetic".data]

/-- The contraction keyword (built characterwise, with an explicit apostrophe char). -/
def dont_understand : List Char :=
  ['d', 'o', 'n', apos, 't', ' ', 'u', 'n', 'd', 'e', 'r', 's', 't', 'a', 'n', 'd']

def confusion_keywords : List (List Char) :=
  ["confused".data, "unclear".data, dont_understand, "what".data, "how".data,
   "why".data, "?".data, "help me".data, "lost".data]

def anxiety_keywords : List (List Char) :=
  ["worried".data, "concern".data, "anxious".data, "nervous".data, "scared".data,
   "fear".data, "panic".data, "urgent".data]

/-- The `emotions` table, in dict insertion order. -/
def emotion_table : List (String × List (List Char)) :=
  [("Joy", joy_keywords), ("Frustration", frustration_keywords),
   ("Confusion", confusion_keywords), ("Anxiety", anxiety_keywords)]

/-- The list `keywords_found` for one category. -/
def matchedKeywords (kws : List (List Char)) (low : List Char) : List (List Char) :=
  kws.filter (fun kw => containsSub kw low)

/-- The score of one category on a text (count of matched keywords). -/
def emoScore (kws : List (List Char)) (t : String) : Nat :=
  (matchedKeywords kws (lowerChars t.data)).length

/-- Python `max(emotion_scores, key=emotion_scores.get)`: the first entry of
maximal score in insertion order (a later entry wins only when strictly
greater). -/
def argmaxFirst : List (String × List (List Char)) → Option (String × List (List Char))
  | [] => none
  | e :: rest =>
    match argmaxFirst rest with
    | none => some e
    | some e2 => if e2.2.length > e.2.length then some e2 else some e

/-- Embeds `DataProcessor.detect_emotion`. -/
def detect_emotion : Option String → String × List (List Char)
  | none => ("Neutral", [])
  | some t =>
    let scored := emotion_table.map
      (fun ek => (ek.1, matchedKeywords ek.2 (lowerChars t.data)))
    if scored.all (fun e => e.2.length == 0) then ("Neutral", [])
    else
      match argmaxFirst scored with
      | some e => e
      | none => ("Neutral", [])

/-! ### Category classifier (`DataProcessor.categorize_post`) -/

def inquiry_phrases : List (List Char) :=
  ["how do".data, "what is".data, "when".data, "where".data, "can i".data,
   "could you".data, "explain".data]

def complaint_cat_words : List (List Char) :=
  ["complaint".data, "problem".data, "issue".data, "error".data, "failed".data,
   "not working".data, "terrible".data, "worst".data]

def praise_words : List (List Char) :=
  ["thank".data, "great".data, "excellent".data, "love".data, "best".data,
   "appreciate".data, "amazing".data]

def suggestion_words : List (List Char) :=
  ["suggest".data, "should".data, "could".data, "recommend".data, "request".data,
   "please add".data]

/-- Embeds `DataProcessor.categorize_post`. -/
def categorize_post : Option String → String × String
  | none => ("Other", "No text content")
  | some t =>
    let low := lowerChars t.data
    if containsSub "?".data low || inquiry_phrases.any (fun p => containsSub p low) then
      ("Inquiry", "Contains questions or information seeking")
    else if complaint_cat_words.any (fun w => containsSub w low) then
      ("Complaint", "Contains complaint or problem description")
    else if praise_words.any (fun w => containsSub w low) then
      ("Praise", "Contains positive feedback or appreciation")
    else if suggestion_words.any (fun w => containsSub w low) then
      ("Suggestion", "Contains suggestions or feature requests")
    else ("Other", "General discussion or observation")

/-! ### Per-row pipeline (`DataProcessor.process_all_data`) -/

/-- One input row.  An engagement counter is `none` when its column is absent
or the cell is NaN — both contribute 0 through `fillna(0)` / the column
presence checks. -/
structure Row where
  text : Option String
  likes : Option ℚ
  shares : Option ℚ
  comments : Option ℚ
deriving DecidableEq

/-- The derived columns `process_all_data` appends to a row. -/
structure RowResult where
  primary_bank : String
  all_banks_mentioned : List String
  prime_mentions : Nat
  sentiment : String
  polarity : ℚ
  emotion : String
  emotion_keywords : List (List Char)
  category : String
  category_reason : String
  viral_score : ℚ
deriving DecidableEq

/-- The `viral_score` before the brand boost: `likes + 2·shares + 1.5·comments`. -/
def baseViral (r : Row) : ℚ :=
  r.likes.getD 0 + r.shares.getD 0 * 2 + r.comments.getD 0 * (3/2)

/-- The row-wise effect of `DataProcessor.process_all_data` (the source applies
each classifier column-wise; per row the result is this record).  The final
`df.loc[df['prime_mentions'] > 0, 'viral_score'] *= 1.2` is the conditional
boost. -/
def process_row (sia : Option (String → ℚ)) (useGpt : Bool)
    (gptResult : Option (String × ℚ)) (r : Row) : RowResult :=
  let ib := identify_bank r.text
  let pm := count_bank_mentions r.text "prime_bank"
  let sent := analyze_sentiment sia useGpt gptResult r.text
  let emo := detect_emotion r.text
  let cat := categorize_post r.text
  let vs := if pm > 0 then baseViral r * (6/5) else baseViral r
  ⟨ib.1, ib.2, pm, sent.1, sent.2, emo.1, emo.2, cat.1, cat.2, vs⟩

/-! ### Comparative analysis (`InsightsGenerator._generate_comparison_insights`) -/

/-- The two columns the comparison reads from a classified row. -/
structure ClassifiedRow where
  primary_bank : String
  sentiment : String
deriving DecidableEq

/-- Positive-rate (percentage) of a bank's rows; `none` when the bank has no
rows (the source then omits it from `bank_sentiment`). -/
def positiveRate (rows : List ClassifiedRow) (bank : String) : Option ℚ :=
  let posts := rows.filter (fun r => r.primary_bank == bank)
  if posts.isEmpty then none
  else some (((posts.filter (fun r => r.sentiment == "Positive")).length : ℚ)
               / posts.length * 100)

/-- The above/below framing of `_generate_comparison_insights`: present only
when prime_bank has rows, and decided by `prime_positive > 50`. -/
def comparisonSummary (rows : List ClassifiedRow) : Option String :=
  match positiveRate rows "prime_bank" with
  | none => none
  | some r => some (if r > 50 then "above average" else "below average")

/-- Reference definition following the spec's words, for comparison with
`comparisonSummary`: the brand of interest is framed above or below the mean
of all other entities' positive rates, ties resolving toward below. -/
def specComparisonSummary (rows : List ClassifiedRow) : Option String :=
  match positiveRate rows "prime_bank" with
  | none => none
  | some r =>
    let others := (bank_list.drop 1).filterMap (fun b => positiveRate rows b)
    if others.isEmpty then none
    else some (if r > others.sum / others.length then "above average"
               else "below average")

/-! ### Helper lemmas -/

/-- A pattern matches somewhere iff the fueled scan counts at least one
match (for sufficient fuel). -/
theorem countMatchesFuel_pos_iff (p : List Tok) :
    ∀ (s : List Char) (fuel : Nat), s.length < fuel →
      (searchb p s = true ↔ 1 ≤ countMatchesFuel fuel p s) := by
  intro s
  induction s with
  | nil =>
    intro fuel _
    cases fuel <;>
      · unfold searchb countMatchesFuel
        cases h : matchLen p [] <;> simp [h]
  | cons c s ih =>
    intro fuel hf
    cases fuel with
    | zero => omega
    | succ f =>
      unfold searchb countMatchesFuel
      cases h : matchLen p (c :: s) with
      | none =>
        have hs : s.length < f := by simp at hf; omega
        simpa [h] using ih f hs
      | some n => cases n <;> simp [h]

/-- A pattern matches somewhere iff `findall` counts at least one match. -/
theorem searchb_iff_count (p : List Tok) (s : List Char) :
    searchb p s = true ↔ 1 ≤ countMatches p s :=
  countMatchesFuel_pos_iff p s (s.length + 1) (by omega)

/-- The summed `findall` counts over a pattern set are positive iff some
pattern of the set matches. -/
theorem sum_counts_pos_iff (pats : List (List Tok)) (low : List Char) :
    0 < (pats.map (fun p => countMatches p low)).sum ↔ bankMatches pats low = true := by
  induction pats with
  | nil => simp [bankMatches]
  | cons p ps ih =>
    unfold bankMatches at *
    rw [List.map_cons, List.sum_cons, List.any_cons]
    have h1 := searchb_iff_count p low
    rw [Bool.or_eq_true]
    constructor
    · intro h
      by_cases hp : 0 < countMatches p low
      · exact Or.inl (h1.mpr hp)
      · exact Or.inr (ih.mp (by omega))
    · rintro (hp | hp)
      · have := h1.mp hp
        omega
      · have := ih.mpr hp
        omega

/-- Membership in the mentioned-banks list. -/
theorem mem_mentionedBanks_iff (b : String) (low : List Char) :
    b ∈ mentionedBanks low ↔
      ∃ bp ∈ bank_patterns, bp.1 = b ∧ bankMatches bp.2 low = true := by
  unfold mentionedBanks
  rw [List.mem_filterMap]
  constructor
  · rintro ⟨bp, hbp, hsome⟩
    by_cases hc : bankMatches bp.2 low = true
    · simp only [hc, if_true, Option.some.injEq] at hsome
      exact ⟨bp, hbp, hsome, hc⟩
    · simp [hc] at hsome
  · rintro ⟨bp, hbp, rfl, hc⟩
    exact ⟨bp, hbp, by simp [hc]⟩

/-- Every mentioned bank is one of the five known entities. -/
theorem mentionedBanks_sub (b : String) (low : List Char)
    (h : b ∈ mentionedBanks low) : b ∈ bank_list := by
  rcases (mem_mentionedBanks_iff b low).mp h with ⟨bp, hbp, hfst, _⟩
  simp only [bank_patterns, List.mem_cons, List.not_mem_nil, or_false] at hbp
  rcases hbp with rfl | rfl | rfl | rfl | rfl <;> simp [bank_list, ← hfst]

/-- The brand `prime_bank` is mentioned iff one of its patterns matches. -/
theorem prime_mem_mentionedBanks (low : List Char) :
    "prime_bank" ∈ mentionedBanks low ↔ bankMatches prime_patterns low = true := by
  rw [mem_mentionedBanks_iff]
  constructor
  · rintro ⟨bp, hbp, hfst, hc⟩
    simp only [bank_patterns, List.mem_cons, List.not_mem_nil, or_false] at hbp
    rcases hbp with rfl | rfl | rfl | rfl | rfl
    · exact hc
    · exact absurd hfst (by decide)
    · exact absurd hfst (by decide)
    · exact absurd hfst (by decide)
    · exact absurd hfst (by decide)
  · intro hc
    exact ⟨("prime_bank", prime_patterns), by simp [bank_patterns], rfl, hc⟩

/-- The second component of `identify_bank` is the mentioned-banks list. -/
theorem identify_bank_snd (t : String) :
    (identify_bank (some t)).2 = mentionedBanks (lowerChars t.data) := by
  cases h : mentionedBanks (lowerChars t.data) with
  | nil => simp only [identify_bank, h]
  | cons b bs => cases bs <;> simp only [identify_bank, h]

/-- The prime-bank pattern table lookup. -/
theorem lookupPatterns_prime : lookupPatterns "prime_bank" = some prime_patterns := rfl

/-- The prime-mention count is positive iff some prime pattern matches. -/
theorem count_prime_pos_iff (t : String) :
    0 < count_bank_mentions (some t) "prime_bank" ↔
      bankMatches prime_patterns (lowerChars t.data) = true := by
  unfold count_bank_mentions
  rw [lookupPatterns_prime]
  exact sum_counts_pos_iff prime_patterns (lowerChars t.data)

/-- One-character substring containment is list membership. -/
theorem containsSub_singleton (c : Char) (l : List Char) :
    containsSub [c] l = true ↔ c ∈ l := by
  induction l with
  | nil => simp [containsSub, listStartsWith]
  | cons b h ih =>
    simp only [containsSub, listStartsWith, Bool.or_eq_true, Bool.and_eq_true,
      decide_eq_true_eq, List.mem_cons, ih]
    tauto

/-- A character fixed by lowering survives into the lowered text. -/
theorem mem_lowerChars_of_fixed (c : Char) (l : List Char)
    (hc : c.toLower = c) (h : c ∈ l) : c ∈ lowerChars l :=
  List.mem_map.mpr ⟨c, h, hc⟩

/-- The first-maximum returned by `argmaxFirst` is an element of the list. -/
theorem argmaxFirst_mem {l : List (String × List (List Char))}
    {x : String × List (List Char)} (h : argmaxFirst l = some x) : x ∈ l := by
  induction l with
  | nil => simp [argmaxFirst] at h
  | cons e rest ih =>
    cases hr : argmaxFirst rest with
    | none =>
      simp only [argmaxFirst, hr, Option.some.injEq] at h
      simp [← h]
    | some y =>
      simp only [argmaxFirst, hr] at h
      split_ifs at h with hc
      · rw [Option.some.injEq] at h
        exact List.mem_cons_of_mem e (ih (h ▸ hr))
      · rw [Option.some.injEq] at h
        simp [← h]

/-- Applying `argmaxFirst` to a nonempty list yields some element. -/
theorem argmaxFirst_cons_ne_none (e : String × List (List Char))
    (l : List (String × List (List Char))) : argmaxFirst (e :: l) ≠ none := by
  cases hr : argmaxFirst l with
  | none => simp [argmaxFirst, hr]
  | some y =>
    simp only [argmaxFirst, hr]
    split_ifs <;> simp

/-- The head of the list wins unless some later element is strictly longer. -/
theorem argmaxFirst_head (e : String × List (List Char))
    (l : List (String × List (List Char)))
    (h : ∀ y ∈ l, y.2.length ≤ e.2.length) : argmaxFirst (e :: l) = some e := by
  cases hr : argmaxFirst l with
  | none => simp [argmaxFirst, hr]
  | some y =>
    have hy : y ∈ l := argmaxFirst_mem hr
    simp only [argmaxFirst, hr]
    rw [if_neg]
    exact fun hgt => absurd (h y hy) (by omega)

/-- A later element wins when it is strictly longer than the head. -/
theorem argmaxFirst_tail (e x : String × List (List Char))
    (l : List (String × List (List Char)))
    (hx : argmaxFirst l = some x) (h : e.2.length < x.2.length) :
    argmaxFirst (e :: l) = some x := by
  simp only [argmaxFirst, hx]
  rw [if_pos]
  omega

/-- The scored emotion table for a text, in declaration order. -/
def emoScored (t : String) : List (String × List (List Char)) :=
  [("Joy", matchedKeywords joy_keywords (lowerChars t.data)),
   ("Frustration", matchedKeywords frustration_keywords (lowerChars t.data)),
   ("Confusion", matchedKeywords confusion_keywords (lowerChars t.data)),
   ("Anxiety", matchedKeywords anxiety_keywords (lowerChars t.data))]

/-- Unfolds `detect_emotion` on a present text, written through `emoScored`. -/
theorem detect_emotion_some (t : String) :
    detect_emotion (some t) =
      if (emoScored t).all (fun e => e.2.length == 0) then ("Neutral", [])
      else
        match argmaxFirst (emoScored t) with
        | some e => e
        | none => ("Neutral", []) := rfl

/-- When no keyword of any category matches, the emotion is Neutral with no
evidence. -/
theorem detect_emotion_neutral (t : String)
    (h0 : emoScore joy_keywords t = 0) (h1 : emoScore frustration_keywords t = 0)
    (h2 : emoScore confusion_keywords t = 0) (h3 : emoScore anxiety_keywords t = 0) :
    detect_emotion (some t) = ("Neutral", []) := by
  simp only [emoScore] at h0 h1 h2 h3
  rw [detect_emotion_some, if_pos]
  simp only [emoScored, List.all_cons, List.all_nil, Bool.and_eq_true, beq_iff_eq,
    Bool.and_true]
  omega

/-- Joy wins when its count is positive and no other count is strictly
greater (Joy is first in priority order, so ties go to Joy). -/
theorem detect_emotion_joy (t : String)
    (h0 : 0 < emoScore joy_keywords t)
    (h1 : emoScore frustration_keywords t ≤ emoScore joy_keywords t)
    (h2 : emoScore confusion_keywords t ≤ emoScore joy_keywords t)
    (h3 : emoScore anxiety_keywords t ≤ emoScore joy_keywords t) :
    detect_emotion (some t) = ("Joy", matchedKeywords joy_keywords (lowerChars t.data)) := by
  simp only [emoScore] at h0 h1 h2 h3
  have hcond : ¬((emoScored t).all (fun e => e.2.length == 0) = true) := by
    simp only [emoScored, List.all_cons, List.all_nil, Bool.and_eq_true, beq_iff_eq,
      Bool.and_true]
    omega
  have hmax : argmaxFirst (emoScored t) =
      some ("Joy", matchedKeywords joy_keywords (lowerChars t.data)) := by
    simp only [emoScored]
    apply argmaxFirst_head
    intro y hy
    simp only [List.mem_cons, List.not_mem_nil, or_false] at hy
    rcases hy with rfl | rfl | rfl
    · exact h1
    · exact h2
    · exact h3
  rw [detect_emotion_some, if_neg hcond, hmax]

/-- Frustration wins when it strictly beats Joy and no later category is
strictly greater. -/
theorem detect_emotion_frustration (t : String)
    (h0 : emoScore joy_keywords t < emoScore frustration_keywords t)
    (h2 : emoScore confusion_keywords t ≤ emoScore frustration_keywords t)
    (h3 : emoScore anxiety_keywords t ≤ emoScore frustration_keywords t) :
    detect_emotion (some t) =
      ("Frustration", matchedKeywords frustration_keywords (lowerChars t.data)) := by
  simp only [emoScore] at h0 h2 h3
  have hcond : ¬((emoScored t).all (fun e => e.2.length == 0) = true) := by
    simp only [emoScored, List.all_cons, List.all_nil, Bool.and_eq_true, beq_iff_eq,
      Bool.and_true]
    omega
  have inner : argmaxFirst
      [("Frustration", matchedKeywords frustration_keywords (lowerChars t.data)),
       ("Confusion", matchedKeywords confusion_keywords (lowerChars t.data)),
       ("Anxiety", matchedKeywords anxiety_keywords (lowerChars t.data))] =
      some ("Frustration", matchedKeywords frustration_keywords (lowerChars t.data)) := by
    apply argmaxFirst_head
    intro y hy
    simp only [List.mem_cons, List.not_mem_nil, or_false] at hy
    rcases hy with rfl | rfl
    · exact h2
    · exact h3
  have hmax : argmaxFirst (emoScored t) =
      some ("Frustration", matchedKeywords frustration_keywords (lowerChars t.data)) := by
    simp only [emoScored]
    exact argmaxFirst_tail _ _ _ inner h0
  rw [detect_emotion_some, if_neg hcond, hmax]

/-- Confusion wins when it strictly beats Joy and Frustration and Anxiety is
not strictly greater. -/
theorem detect_emotion_confusion (t : String)
    (h0 : emoScore joy_keywords t < emoScore confusion_keywords t)
    (h1 : emoScore frustration_keywords t < emoScore confusion_keywords t)
    (h3 : emoScore anxiety_keywords t ≤ emoScore confusion_keywords t) :
    detect_emotion (some t) =
      ("Confusion", matchedKeywords confusion_keywords (lowerChars t.data)) := by
  simp only [emoScore] at h0 h1 h3
  have hcond : ¬((emoScored t).all (fun e => e.2.length == 0) = true) := by
    simp only [emoScored, List.all_cons, List.all_nil, Bool.and_eq_true, beq_iff_eq,
      Bool.and_true]
    omega
  have inner2 : argmaxFirst
      [("Confusion", matchedKeywords confusion_keywords (lowerChars t.data)),
       ("Anxiety", matchedKeywords anxiety_keywords (lowerChars t.data))] =
      some ("Confusion", matchedKeywords confusion_keywords (lowerChars t.data)) := by
    apply argmaxFirst_head
    intro y hy
    simp only [List.mem_cons, List.not_mem_nil, or_false] at hy
    rcases hy with rfl
    · exact h3
  have inner1 : argmaxFirst
      [("Frustration", matchedKeywords frustration_keywords (lowerChars t.data)),
       ("Confusion", matchedKeywords confusion_keywords (lowerChars t.data)),
       ("Anxiety", matchedKeywords anxiety_keywords (lowerChars t.data))] =
      some ("Confusion", matchedKeywords confusion_keywords (lowerChars t.data)) :=
    argmaxFirst_tail _ _ _ inner2 h1
  have hmax : argmaxFirst (emoScored t) =
      some ("Confusion", matchedKeywords confusion_keywords (lowerChars t.data)) := by
    simp only [emoScored]
    exact argmaxFirst_tail _ _ _ inner1 h0
  rw [detect_emotion_some, if_neg hcond, hmax]

/-- Anxiety wins only when it strictly beats every earlier category. -/
theorem detect_emotion_anxiety (t : String)
    (h0 : emoScore joy_keywords t < emoScore anxiety_keywords t)
    (h1 : emoScore frustration_keywords t < emoScore anxiety_keywords t)
    (h2 : emoScore confusion_keywords t < emoScore anxiety_keywords t) :
    detect_emotion (some t) =
      ("Anxiety", matchedKeywords anxiety_keywords (lowerChars t.data)) := by
  simp only [emoScore] at h0 h1 h2
  have hcond : ¬((emoScored t).all (fun e => e.2.length == 0) = true) := by
    simp only [emoScored, List.all_cons, List.all_nil, Bool.and_eq_true, beq_iff_eq,
      Bool.and_true]
    omega
  have inner3 : argmaxFirst
      [("Anxiety", matchedKeywords anxiety_keywords (lowerChars t.data))] =
      some ("Anxiety", matchedKeywords anxiety_keywords (lowerChars t.data)) := by
    apply argmaxFirst_head
    intro y hy
    simp at hy
  have inner2 : argmaxFirst
      [("Confusion", matchedKeywords confusion_keywords (lowerChars t.data)),
       ("Anxiety", matchedKeywords anxiety_keywords (lowerChars t.data))] =
      some ("Anxiety", matchedKeywords anxiety_keywords (lowerChars t.data)) :=
    argmaxFirst_tail _ _ _ inner3 h2
  have inner1 : argmaxFirst
      [("Frustration", matchedKeywords frustration_keywords (lowerChars t.data)),
       ("Confusion", matchedKeywords confusion_keywords (lowerChars t.data)),
       ("Anxiety", matchedKeywords anxiety_keywords (lowerChars t.data))] =
      some ("Anxiety", matchedKeywords anxiety_keywords (lowerChars t.data)) :=
    argmaxFirst_tail _ _ _ inner2 h1
  have hmax : argmaxFirst (emoScored t) =
      some ("Anxiety", matchedKeywords anxiety_keywords (lowerChars t.data)) := by
    simp only [emoScored]
    exact argmaxFirst_tail _ _ _ inner1 h0
  rw [detect_emotion_some, if_neg hcond, hmax]

/-- The emotion label is always one of the four category names or Neutral. -/
theorem detect_emotion_label_mem (t : Option String) :
    (detect_emotion t).1 ∈
      (["Neutral", "Joy", "Frustration", "Confusion", "Anxiety"] : List String) := by
  cases t with
  | none => simp [detect_emotion]
  | some s =>
    rw [detect_emotion_some]
    split_ifs
    · simp
    · cases hx : argmaxFirst (emoScored s) with
      | none => simp
      | some e =>
        have hm := argmaxFirst_mem hx
        simp only [emoScored, List.mem_cons, List.not_mem_nil, or_false] at hm
        rcases hm with rfl | rfl | rfl | rfl <;> simp

/-- With no backend configured or a failed call, `analyze_sentiment` is the
baseline lexicon result. -/
theorem analyze_sentiment_no_adjudication (sia : Option (String → ℚ))
    (useGpt : Bool) (g : Option (String × ℚ)) (t : Option String)
    (h : useGpt = false ∨ g = none) :
    analyze_sentiment sia useGpt g t = baselineResult sia t := by
  cases t with
  | none => rfl
  | some s =>
    rcases h with rfl | rfl
    · by_cases hb : isBlankText s <;> simp [analyze_sentiment, baselineResult, hb]
    · by_cases hb : isBlankText s <;> simp [analyze_sentiment, baselineResult, hb]

/-- On the accepted-adjudication path the backend's parsed values are
returned as-is. -/
theorem analyze_sentiment_accepted (sia : Option (String → ℚ))
    (r : String × ℚ) (t : String) (hb : isBlankText t = false)
    (htr : (isComplaintText t || (vaderBaseline sia t).1 == "Neutral") = true) :
    analyze_sentiment sia true (some r) (some t) = r := by
  simp [analyze_sentiment, hb, htr]

/-- The baseline label is always one of the three sentiment labels. -/
theorem baselineResult_label_mem (sia : Option (String → ℚ)) (t : Option String) :
    (baselineResult sia t).1 ∈ (["Positive", "Negative", "Neutral"] : List String) := by
  cases t with
  | none => simp [baselineResult]
  | some s =>
    by_cases hb : isBlankText s
    · simp [baselineResult, hb]
    · cases sia with
      | none => simp [baselineResult, hb, vaderBaseline]
      | some f =>
        simp only [baselineResult, hb, vaderBaseline, vaderLabel, Bool.false_eq_true,
          if_false]
        split_ifs <;> simp

/-- The baseline score is within `[-1, 1]` whenever the lexicon compound
scores are. -/
theorem baselineResult_score_bound (sia : Option (String → ℚ)) (t : Option String)
    (hf : ∀ f s, sia = some f → |f s| ≤ 1) :
    |(baselineResult sia t).2| ≤ 1 := by
  cases t with
  | none => simp [baselineResult]
  | some s =>
    by_cases hb : isBlankText s
    · simp [baselineResult, hb]
    · cases hs : sia with
      | none => simp [baselineResult, hb, vaderBaseline]
      | some f =>
        simp only [baselineResult, hb, vaderBaseline, Bool.false_eq_true, if_false]
        exact hf f s hs

/-- The category label is always one of the five categories. -/
theorem categorize_post_label_mem (t : Option String) :
    (categorize_post t).1 ∈
      (["Inquiry", "Complaint", "Praise", "Suggestion", "Other"] : List String) := by
  cases t with
  | none => simp [categorize_post]
  | some s =>
    simp only [categorize_post]
    split_ifs <;> simp

/-- A text containing `?` is categorized as Inquiry by the first cascade rule. -/
theorem categorize_post_inquiry (s : String)
    (h : containsSub "?".data (lowerChars s.data) = true) :
    categorize_post (some s) = ("Inquiry", "Contains questions or information seeking") := by
  simp [categorize_post, h]

/-- A question mark in the raw text survives lowering. -/
theorem qmark_in_lower (s : String) (h : '?' ∈ s.data) :
    containsSub "?".data (lowerChars s.data) = true := by
  rw [show ("?".data) = ['?'] from rfl, containsSub_singleton]
  exact mem_lowerChars_of_fixed '?' s.data rfl h

/-- A text whose `identify_bank` label is `none` mentions no bank. -/
theorem identify_bank_fst_none (t : String)
    (h : (identify_bank (some t)).1 = "none") :
    mentionedBanks (lowerChars t.data) = [] := by
  rcases hm : mentionedBanks (lowerChars t.data) with _ | ⟨b, bs⟩
  · rfl
  · cases bs with
    | nil =>
      have hfst : (identify_bank (some t)).1 = b := by simp only [identify_bank, hm]
      have hbm : b ∈ mentionedBanks (lowerChars t.data) := by
        rw [hm]; exact List.mem_cons_self b []
      have hb : b ∈ bank_list := mentionedBanks_sub b _ hbm
      rw [hfst] at h
      rw [h] at hb
      exact absurd hb (by decide)
    | cons b2 bs2 =>
      have hfst : (identify_bank (some t)).1 = "multiple" := by
        simp only [identify_bank, hm]
      rw [hfst] at h
      exact absurd h (by decide)

/-! ### Concrete inputs used by the scenario claims -/

def exText1 : String := "Prime Bank app is terrible, nothing works"

def exText2 : String := "Thanks Prime Bank, great service!"

def exRow1 : Row := ⟨some exText1, some 10, none, none⟩

def exRow2 : Row := ⟨some exText2, some 5, none, none⟩

def exRows : List ClassifiedRow :=
  [⟨"prime_bank", "Positive"⟩, ⟨"prime_bank", "Positive"⟩, ⟨"prime_bank", "Positive"⟩,
   ⟨"prime_bank", "Negative"⟩, ⟨"prime_bank", "Negative"⟩, ⟨"eastern_bank", "Positive"⟩]

/-! ### Claim theorems -/

/-- C1 (counterexample): on the path where a configured adjudication
backend's response is accepted, `analyze_sentiment` returns the backend's
values unvalidated, so the label can lie outside
{Positive, Negative, Neutral} and the score outside `[-1, 1]`. -/
theorem claim_C1_counterexample :
    analyze_sentiment (some (fun _ => 0)) true (some ("Bogus", 2)) (some "a problem")
        = ("Bogus", 2) ∧
    ("Bogus" ∉ (["Positive", "Negative", "Neutral"] : List String)) ∧
    ¬(|(2 : ℚ)| ≤ 1) := by
  refine ⟨rfl, by decide, by norm_num⟩

/-- C1 (amended): empty or missing text always yields `(Neutral, 0.0)`; on
every path that does not accept a backend response the label is one of
{Positive, Negative, Neutral} and, provided the lexicon compound scores lie
in `[-1, 1]`, so does the returned score; on the accepted path the backend's
pair is returned exactly as parsed, with no validation. -/
theorem claim_C1_amended (sia : Option (String → ℚ)) (useGpt : Bool)
    (g : Option (String × ℚ)) :
    (analyze_sentiment sia useGpt g none = ("Neutral", 0)) ∧
    (∀ t, isBlankText t = true → analyze_sentiment sia useGpt g (some t) = ("Neutral", 0)) ∧
    (∀ t, (useGpt = false ∨ g = none) → (∀ f s, sia = some f → |f s| ≤ 1) →
      (analyze_sentiment sia useGpt g t).1 ∈
          (["Positive", "Negative", "Neutral"] : List String) ∧
      |(analyze_sentiment sia useGpt g t).2| ≤ 1) ∧
    (∀ t r, isBlankText t = false →
      (isComplaintText t || (vaderBaseline sia t).1 == "Neutral") = true →
      analyze_sentiment sia true (some r) (some t) = r) := by
  refine ⟨rfl, ?_, ?_, ?_⟩
  · intro t ht
    simp [analyze_sentiment, ht]
  · intro t hor hf
    rw [analyze_sentiment_no_adjudication _ _ _ _ hor]
    exact ⟨baselineResult_label_mem sia t, baselineResult_score_bound sia t hf⟩
  · intro t r hb htr
    exact analyze_sentiment_accepted sia r t hb htr

/-- C1 (witness): the amended statement applied at a configuration with no
backend and a bounded lexicon oracle. -/
theorem claim_C1_witness :
    (analyze_sentiment (some (fun _ => (1 : ℚ)/10)) false none (some "good day")).1 ∈
        (["Positive", "Negative", "Neutral"] : List String) ∧
    |(analyze_sentiment (some (fun _ => (1 : ℚ)/10)) false none (some "good day")).2| ≤ 1 :=
  (claim_C1_amended (some (fun _ => (1 : ℚ)/10)) false none).2.2.1 (some "good day")
    (Or.inl rfl)
    (fun f s h => by
      rw [Option.some.injEq] at h
      subst h
      show |(1 : ℚ)/10| ≤ 1
      rw [abs_le]
      norm_num)

/-- C2 (counterexample): on a dataset where prime_bank's positive rate (60%)
is below the sole other entity's rate (100%), the code still reports
"above average", because it compares against the fixed 50% threshold and not
against the mean of the other entities' positive rates. -/
theorem positiveRate_prime_exRows : positiveRate exRows "prime_bank" = some 60 := by
  have h : positiveRate exRows "prime_bank" =
      some (((3 : Nat) : ℚ) / ((5 : Nat) : ℚ) * 100) := rfl
  rw [h]
  norm_num

theorem positiveRate_eastern_exRows :
    positiveRate exRows "eastern_bank" = some 100 := by
  have h : positiveRate exRows "eastern_bank" =
      some (((1 : Nat) : ℚ) / ((1 : Nat) : ℚ) * 100) := rfl
  rw [h]
  norm_num

theorem positiveRate_brac_exRows : positiveRate exRows "brac_bank" = none := rfl

theorem positiveRate_city_exRows : positiveRate exRows "city_bank" = none := rfl

theorem positiveRate_dutch_exRows : positiveRate exRows "dutch_bangla" = none := rfl

theorem claim_C2_counterexample :
    comparisonSummary exRows = some "above average" ∧
    specComparisonSummary exRows = some "below average" ∧
    positiveRate exRows "prime_bank" = some 60 ∧
    positiveRate exRows "eastern_bank" = some 100 := by
  refine ⟨?_, ?_, positiveRate_prime_exRows, positiveRate_eastern_exRows⟩
  · rw [show comparisonSummary exRows =
        (match positiveRate exRows "prime_bank" with
         | none => none
         | some r => some (if r > 50 then "above average" else "below average")) from rfl,
      positiveRate_prime_exRows]
    norm_num
  · rw [show specComparisonSummary exRows =
        (match positiveRate exRows "prime_bank" with
         | none => none
         | some r =>
           let others := (bank_list.drop 1).filterMap (fun b => positiveRate exRows b)
           if others.isEmpty then none
           else some (if r > others.sum / others.length then "above average"
                      else "below average")) from rfl,
      positiveRate_prime_exRows]
    simp only [bank_list, List.drop_succ_cons, List.drop_zero, List.filterMap_cons,
      positiveRate_eastern_exRows, positiveRate_brac_exRows, positiveRate_city_exRows,
      positiveRate_dutch_exRows, List.filterMap_nil]
    norm_num

/-- C2 (amended): the comparative analysis computes a positive rate per
entity, but frames prime_bank against the fixed 50% threshold: "above
average" iff the rate exceeds 50, and a tie at exactly 50 resolves to
"below average". -/
theorem claim_C2_amended (rows : List ClassifiedRow) (r : ℚ)
    (h : positiveRate rows "prime_bank" = some r) :
    comparisonSummary rows =
      some (if r > 50 then "above average" else "below average") ∧
    (r = 50 → comparisonSummary rows = some "below average") := by
  constructor
  · simp [comparisonSummary, h]
  · rintro rfl
    simp [comparisonSummary, h]

/-- C2 (witness): the amended statement applied to the concrete dataset with
a 60% prime positive rate. -/
theorem claim_C2_witness :
    comparisonSummary exRows =
      some (if (60 : ℚ) > 50 then "above average" else "below average") :=
  (claim_C2_amended exRows 60 positiveRate_prime_exRows).1

/-- C5: with no backend configured (`useGpt = false`) or a failed backend
call (`gptResult = none`), `analyze_sentiment` returns exactly the baseline
lexicon result for every text, and in particular a trigger text containing
"problem" is unaffected when no backend is configured. -/
theorem claim_C5 (sia : Option (String → ℚ)) (g : Option (String × ℚ))
    (t : Option String) :
    analyze_sentiment sia true none t = baselineResult sia t ∧
    analyze_sentiment sia false g t = baselineResult sia t ∧
    (∀ s, containsSub "problem".data (lowerChars s.data) = true →
      analyze_sentiment sia false g (some s) = baselineResult sia (some s)) :=
  ⟨analyze_sentiment_no_adjudication sia true none t (Or.inr rfl),
   analyze_sentiment_no_adjudication sia false g t (Or.inl rfl),
   fun s _ => analyze_sentiment_no_adjudication sia false g (some s) (Or.inl rfl)⟩

/-- C5 (witness): the fallback statement at a concrete trigger text. -/
theorem claim_C5_witness :
    analyze_sentiment none false none (some "there is a problem") =
      baselineResult none (some "there is a problem") :=
  (claim_C5 none none (some "there is a problem")).2.2 "there is a problem" (by decide)

/-- C6: the virality score is `likes + 2·shares + 1.5·comments` with missing
or null counters contributing 0, boosted by exactly 1.2 (applied once) iff
the prime-bank mention count is positive; two rows identical but for the
mention count (0 vs positive) have scores in exact ratio 1 : 1.2. -/
theorem claim_C6 (sia : Option (String → ℚ)) (useGpt : Bool)
    (g : Option (String × ℚ)) :
    (∀ r : Row, (process_row sia useGpt g r).viral_score =
      (if 0 < count_bank_mentions r.text "prime_bank"
       then (r.likes.getD 0 + 2 * r.shares.getD 0 + (3/2) * r.comments.getD 0) * (6/5)
       else r.likes.getD 0 + 2 * r.shares.getD 0 + (3/2) * r.comments.getD 0)) ∧
    (∀ (t0 t1 : Option String) (likes shares comments : Option ℚ),
      count_bank_mentions t0 "prime_bank" = 0 →
      0 < count_bank_mentions t1 "prime_bank" →
      (process_row sia useGpt g ⟨t1, likes, shares, comments⟩).viral_score =
        (6/5) * (process_row sia useGpt g ⟨t0, likes, shares, comments⟩).viral_score) := by
  constructor
  · intro r
    show (if 0 < count_bank_mentions r.text "prime_bank"
          then baseViral r * (6/5) else baseViral r) = _
    unfold baseViral
    split_ifs <;> ring
  · intro t0 t1 likes shares comments h0 h1
    show (if 0 < count_bank_mentions t1 "prime_bank"
          then baseViral ⟨t1, likes, shares, comments⟩ * (6/5)
          else baseViral ⟨t1, likes, shares, comments⟩) =
      (6/5) * (if 0 < count_bank_mentions t0 "prime_bank"
               then baseViral ⟨t0, likes, shares, comments⟩ * (6/5)
               else baseViral ⟨t0, likes, shares, comments⟩)
    rw [if_pos h1, if_neg (by omega)]
    unfold baseViral
    ring

/-- C6 (witness): the 1 : 1.2 ratio at a concrete pair of rows. -/
theorem claim_C6_witness :
    (process_row none false none ⟨some "prime bank", some 10, none, none⟩).viral_score =
      (6/5) * (process_row none false none ⟨some "hello", some 10, none, none⟩).viral_score :=
  (claim_C6 none false none).2 (some "hello") (some "prime bank") (some 10) none none
    (by decide) (by decide)

/-- C7: the category classifier is total over the five categories; any text
containing a question mark is classified Inquiry by the first cascade rule
regardless of other keywords; and the category and reason a row receives do
not depend on the sentiment configuration or the engagement counters. -/
theorem claim_C7 (t : Option String) :
    (categorize_post t).1 ∈
      (["Inquiry", "Complaint", "Praise", "Suggestion", "Other"] : List String) ∧
    (∀ s, t = some s → '?' ∈ s.data → (categorize_post t).1 = "Inquiry") ∧
    (∀ (sia : Option (String → ℚ)) (useGpt : Bool) (g : Option (String × ℚ))
       (likes shares comments : Option ℚ),
      (process_row sia useGpt g ⟨t, likes, shares, comments⟩).category =
        (categorize_post t).1 ∧
      (process_row sia useGpt g ⟨t, likes, shares, comments⟩).category_reason =
        (categorize_post t).2) := by
  refine ⟨categorize_post_label_mem t, ?_, ?_⟩
  · rintro s rfl hq
    rw [categorize_post_inquiry s (qmark_in_lower s hq)]
  · intro sia useGpt g likes shares comments
    exact ⟨rfl, rfl⟩

/-- C7 (witness): the question-mark rule at a concrete text that also
contains complaint and praise keywords. -/
theorem claim_C7_witness :
    (categorize_post (some "great but terrible?")).1 = "Inquiry" :=
  (claim_C7 (some "great but terrible?")).2.1 "great but terrible?" rfl (by decide)

/-- C3 (counterexample): on both scenario texts the prime-bank mention count
is 2, not 1 — the substring "prime bank" is matched both by the
`prime\s*bank` pattern and by the `prime\s*b\.?` pattern, and
`count_bank_mentions` sums the `findall` counts over all patterns. -/
theorem claim_C3_counterexample :
    count_bank_mentions (some exText1) "prime_bank" = 2 ∧
    count_bank_mentions (some exText2) "prime_bank" = 2 := by
  exact ⟨by decide, by decide⟩

/-- C3 (amended): on the two scenario rows, for any lexicon oracle that
scores the first text at or below −0.05 and the second at or above 0.05
(as VADER does), the pipeline assigns sentiments Negative and Positive,
categories Complaint and Praise, emotions Frustration and Joy, virality
scores exactly 12.0 and 6.0 — and entity-mention count 2 (not 1) for both. -/
theorem claim_C3_amended (f : String → ℚ)
    (h1 : f exText1 ≤ -(1/20)) (h2 : (1/20 : ℚ) ≤ f exText2) :
    ((process_row (some f) false none exRow1).sentiment = "Negative" ∧
     (process_row (some f) false none exRow1).polarity = f exText1 ∧
     (process_row (some f) false none exRow1).category = "Complaint" ∧
     (process_row (some f) false none exRow1).emotion = "Frustration" ∧
     (process_row (some f) false none exRow1).prime_mentions = 2 ∧
     (process_row (some f) false none exRow1).viral_score = 12) ∧
    ((process_row (some f) false none exRow2).sentiment = "Positive" ∧
     (process_row (some f) false none exRow2).polarity = f exText2 ∧
     (process_row (some f) false none exRow2).category = "Praise" ∧
     (process_row (some f) false none exRow2).emotion = "Joy" ∧
     (process_row (some f) false none exRow2).prime_mentions = 2 ∧
     (process_row (some f) false none exRow2).viral_score = 6) := by
  have hs1 : analyze_sentiment (some f) false none (some exText1) =
      ("Negative", f exText1) := by
    rw [analyze_sentiment_no_adjudication _ _ _ _ (Or.inl rfl)]
    show (if isBlankText exText1 then ("Neutral", 0) else vaderBaseline (some f) exText1) = _
    rw [if_neg (by decide)]
    show (vaderLabel (f exText1), f exText1) = _
    unfold vaderLabel
    rw [if_neg (by intro hge; rw [ge_iff_le] at hge; linarith), if_pos h1]
  have hs2 : analyze_sentiment (some f) false none (some exText2) =
      ("Positive", f exText2) := by
    rw [analyze_sentiment_no_adjudication _ _ _ _ (Or.inl rfl)]
    show (if isBlankText exText2 then ("Neutral", 0) else vaderBaseline (some f) exText2) = _
    rw [if_neg (by decide)]
    show (vaderLabel (f exText2), f exText2) = _
    unfold vaderLabel
    rw [if_pos (by exact h2)]
  refine ⟨⟨?_, ?_, ?_, ?_, ?_, ?_⟩, ⟨?_, ?_, ?_, ?_, ?_, ?_⟩⟩
  · show (analyze_sentiment (some f) false none (some exText1)).1 = "Negative"
    rw [hs1]
  · show (analyze_sentiment (some f) false none (some exText1)).2 = f exText1
    rw [hs1]
  · exact (by decide : (categorize_post (some exText1)).1 = "Complaint")
  · exact (by decide : (detect_emotion (some exText1)).1 = "Frustration")
  · exact (by decide : count_bank_mentions (some exText1) "prime_bank" = 2)
  · show (if 0 < count_bank_mentions (some exText1) "prime_bank"
          then baseViral exRow1 * (6/5) else baseViral exRow1) = 12
    rw [if_pos (by decide)]
    show ((10 : ℚ) + 0 * 2 + 0 * (3/2)) * (6/5) = 12
    norm_num
  · show (analyze_sentiment (some f) false none (some exText2)).1 = "Positive"
    rw [hs2]
  · show (analyze_sentiment (some f) false none (some exText2)).2 = f exText2
    rw [hs2]
  · exact (by decide : (categorize_post (some exText2)).1 = "Praise")
  · exact (by decide : (detect_emotion (some exText2)).1 = "Joy")
  · exact (by decide : count_bank_mentions (some exText2) "prime_bank" = 2)
  · show (if 0 < count_bank_mentions (some exText2) "prime_bank"
          then baseViral exRow2 * (6/5) else baseViral exRow2) = 6
    rw [if_pos (by decide)]
    show ((5 : ℚ) + 0 * 2 + 0 * (3/2)) * (6/5) = 6
    norm_num

/-- A concrete bounded lexicon oracle for the scenario rows. -/
def exOracle : String → ℚ := fun s => if s = exText1 then -1 else 1

/-- C3 (witness): the amended scenario at a concrete oracle. -/
theorem claim_C3_witness :
    (process_row (some exOracle) false none exRow1).sentiment = "Negative" ∧
    (process_row (some exOracle) false none exRow2).sentiment = "Positive" :=
  ⟨((claim_C3_amended exOracle
      (by norm_num [exOracle])
      (by
        have h : exOracle exText2 = 1 := by
          unfold exOracle
          rw [if_neg (by decide)]
        rw [h]
        norm_num)).1).1,
   ((claim_C3_amended exOracle
      (by norm_num [exOracle])
      (by
        have h : exOracle exText2 = 1 := by
          unfold exOracle
          rw [if_neg (by decide)]
        rw [h]
        norm_num)).2).1⟩

/-- C4 (counterexample): a text mentioning only Eastern Bank has an entity
name (not `none`) as primary entity while the prime-bank mention count is 0,
refuting "zero only when primary_entity = none". -/
theorem claim_C4_counterexample :
    identify_bank (some "eastern bank is fine") = ("eastern_bank", ["eastern_bank"]) ∧
    count_bank_mentions (some "eastern bank is fine") "prime_bank" = 0 ∧
    "eastern_bank" ≠ "none" := by
  exact ⟨by decide, by decide, by decide⟩

/-- C4 (amended): the prime-bank mention count (a natural number, hence
non-negative) is positive exactly when prime_bank is among the mentioned
entities, and a `none` primary entity forces a zero count; a zero count can
however coexist with a primary entity naming another bank. -/
theorem claim_C4_amended (text : Option String) :
    (0 < count_bank_mentions text "prime_bank" ↔
      "prime_bank" ∈ (identify_bank text).2) ∧
    ((identify_bank text).1 = "none" → count_bank_mentions text "prime_bank" = 0) := by
  cases text with
  | none =>
    constructor
    · simp [count_bank_mentions, identify_bank]
    · intro _
      rfl
  | some t =>
    have hiff : 0 < count_bank_mentions (some t) "prime_bank" ↔
        "prime_bank" ∈ (identify_bank (some t)).2 := by
      rw [identify_bank_snd, count_prime_pos_iff, prime_mem_mentionedBanks]
    refine ⟨hiff, ?_⟩
    intro hn
    have hm := identify_bank_fst_none t hn
    by_contra hne
    have hpos := hiff.mp (Nat.pos_of_ne_zero hne)
    rw [identify_bank_snd, hm] at hpos
    simp at hpos

/-- C4 (witness): the none-implies-zero direction at a concrete bankless
text. -/
theorem claim_C4_witness :
    count_bank_mentions (some "just a text") "prime_bank" = 0 :=
  (claim_C4_amended (some "just a text")).2 (by decide)

/-- C8: the emotion classifier counts matched keywords per category and
returns the first category of maximal count in the fixed order
Joy > Frustration > Confusion > Anxiety together with its matched-keyword
evidence; when every count is zero (or the text is missing) it returns
Neutral with an empty list. -/
theorem claim_C8 (t : String) :
    detect_emotion none = ("Neutral", []) ∧
    (emoScore joy_keywords t = 0 → emoScore frustration_keywords t = 0 →
     emoScore confusion_keywords t = 0 → emoScore anxiety_keywords t = 0 →
      detect_emotion (some t) = ("Neutral", [])) ∧
    (0 < emoScore joy_keywords t →
     emoScore frustration_keywords t ≤ emoScore joy_keywords t →
     emoScore confusion_keywords t ≤ emoScore joy_keywords t →
     emoScore anxiety_keywords t ≤ emoScore joy_keywords t →
      detect_emotion (some t) = ("Joy", matchedKeywords joy_keywords (lowerChars t.data))) ∧
    (emoScore joy_keywords t < emoScore frustration_keywords t →
     emoScore confusion_keywords t ≤ emoScore frustration_keywords t →
     emoScore anxiety_keywords t ≤ emoScore frustration_keywords t →
      detect_emotion (some t) =
        ("Frustration", matchedKeywords frustration_keywords (lowerChars t.data))) ∧
    (emoScore joy_keywords t < emoScore confusion_keywords t →
     emoScore frustration_keywords t < emoScore confusion_keywords t →
     emoScore anxiety_keywords t ≤ emoScore confusion_keywords t →
      detect_emotion (some t) =
        ("Confusion", matchedKeywords confusion_keywords (lowerChars t.data))) ∧
    (emoScore joy_keywords t < emoScore anxiety_keywords t →
     emoScore frustration_keywords t < emoScore anxiety_keywords t →
     emoScore confusion_keywords t < emoScore anxiety_keywords t →
      detect_emotion (some t) =
        ("Anxiety", matchedKeywords anxiety_keywords (lowerChars t.data))) :=
  ⟨rfl, detect_emotion_neutral t, detect_emotion_joy t, detect_emotion_frustration t,
   detect_emotion_confusion t, detect_emotion_anxiety t⟩

/-- C8 (witness): a tie-free concrete case where Frustration strictly beats
Joy and the matched-keyword evidence is returned. -/
theorem claim_C8_witness :
    detect_emotion (some "happy terrible worst") =
      ("Frustration", ["terrible".data, "worst".data]) :=
  (claim_C8 "happy terrible worst").2.2.2.1 (by decide) (by decide) (by decide)

/-- Every known entity name differs from the `none` sentinel. -/
theorem bank_list_ne_none : ∀ b ∈ bank_list, b ≠ "none" := by decide

/-- Every known entity name differs from the `multiple` sentinel. -/
theorem bank_list_ne_multiple : ∀ b ∈ bank_list, b ≠ "multiple" := by decide

/-- Case analysis of `identify_bank` by the number of mentioned banks. -/
theorem identify_bank_three_cases (t : String) :
    (mentionedBanks (lowerChars t.data) = [] ∧ identify_bank (some t) = ("none", [])) ∨
    (∃ b, mentionedBanks (lowerChars t.data) = [b] ∧ b ∈ bank_list ∧
      identify_bank (some t) = (b, [b])) ∨
    (2 ≤ (mentionedBanks (lowerChars t.data)).length ∧
      identify_bank (some t) = ("multiple", mentionedBanks (lowerChars t.data))) := by
  rcases hm : mentionedBanks (lowerChars t.data) with _ | ⟨b0, bs⟩
  · exact Or.inl ⟨rfl, by simp only [identify_bank, hm]⟩
  · cases bs with
    | nil =>
      refine Or.inr (Or.inl ⟨b0, rfl, ?_, by simp only [identify_bank, hm]⟩)
      exact mentionedBanks_sub b0 _ (by rw [hm]; exact List.mem_cons_self b0 [])
    | cons b1 bs1 =>
      refine Or.inr (Or.inr ⟨?_, by simp only [identify_bank, hm]⟩)
      simp only [List.length_cons]
      omega

/-- C9: for missing text `identify_bank` returns the none/empty result
without failing; otherwise its label is `none` exactly when no entity's
pattern set matches, the sole entity's name exactly when that entity alone
matches, and `multiple` exactly when at least two entities match; an entity
is mentioned precisely when some pattern of its set matches the lowered
text. -/
theorem claim_C9 (t : String) :
    identify_bank none = ("none", []) ∧
    ((identify_bank (some t)).1 = "none" ↔ mentionedBanks (lowerChars t.data) = []) ∧
    ((identify_bank (some t)).1 = "multiple" ↔
      2 ≤ (mentionedBanks (lowerChars t.data)).length) ∧
    (∀ b, b ∈ bank_list →
      ((identify_bank (some t)).1 = b ↔ mentionedBanks (lowerChars t.data) = [b])) ∧
    (∀ b, b ∈ mentionedBanks (lowerChars t.data) ↔
      ∃ pats, (b, pats) ∈ bank_patterns ∧ bankMatches pats (lowerChars t.data) = true) := by
  refine ⟨rfl, ?_, ?_, ?_, ?_⟩
  · rcases identify_bank_three_cases t with ⟨hm, hi⟩ | ⟨b0, hm, hb0, hi⟩ | ⟨hlen, hi⟩
    · rw [hi, hm]
      simp
    · rw [hi, hm]
      exact iff_of_false (fun h => bank_list_ne_none b0 hb0 h) (by simp)
    · rw [hi]
      exact iff_of_false
        (fun h => absurd (show ("multiple" : String) = "none" from h) (by decide))
        (fun h => by rw [h] at hlen; simp at hlen)
  · rcases identify_bank_three_cases t with ⟨hm, hi⟩ | ⟨b0, hm, hb0, hi⟩ | ⟨hlen, hi⟩
    · rw [hi, hm]
      exact iff_of_false
        (fun h => absurd (show ("none" : String) = "multiple" from h) (by decide))
        (by simp)
    · rw [hi, hm]
      exact iff_of_false (fun h => bank_list_ne_multiple b0 hb0 h) (by simp)
    · rw [hi]
      exact iff_of_true rfl hlen
  · intro b hb
    rcases identify_bank_three_cases t with ⟨hm, hi⟩ | ⟨b0, hm, hb0, hi⟩ | ⟨hlen, hi⟩
    · rw [hi, hm]
      exact iff_of_false (fun h => bank_list_ne_none b hb h.symm) (by simp)
    · rw [hi, hm]
      constructor
      · intro h
        have hb0b : b0 = b := h
        rw [hb0b]
      · intro h
        simp only [List.cons.injEq, and_true] at h
        exact h
    · rw [hi]
      refine iff_of_false (fun h => bank_list_ne_multiple b hb h.symm) (fun h => ?_)
      rw [h] at hlen
      simp at hlen
  · intro b
    rw [mem_mentionedBanks_iff]
    constructor
    · rintro ⟨bp, hbp, hfst, hc⟩
      refine ⟨bp.2, ?_, hc⟩
      rw [← hfst]
      exact hbp
    · rintro ⟨pats, hmem, hc⟩
      exact ⟨(b, pats), hmem, rfl, hc⟩

/-- C9 (witness): the sole-entity characterization at a concrete text. -/
theorem claim_C9_witness :
    (identify_bank (some "I love Prime Bank")).1 = "prime_bank" ↔
      mentionedBanks (lowerChars "I love Prime Bank".data) = ["prime_bank"] :=
  (claim_C9 "I love Prime Bank").2.2.2.1 "prime_bank" (by decide)

/-- C10 (implicit): a text containing `?` never gets the Neutral emotion
because `?` is itself a Confusion keyword; Confusion wins outright whenever
every other category matches strictly fewer keywords; and the same text is
independently categorized as Inquiry on the category axis. -/
theorem claim_C10 (s : String) (hq : '?' ∈ s.data) :
    (detect_emotion (some s)).1 ≠ "Neutral" ∧
    (emoScore joy_keywords s < emoScore confusion_keywords s →
     emoScore frustration_keywords s < emoScore confusion_keywords s →
     emoScore anxiety_keywords s < emoScore confusion_keywords s →
      (detect_emotion (some s)).1 = "Confusion") ∧
    (categorize_post (some s)).1 = "Inquiry" := by
  have hc : containsSub "?".data (lowerChars s.data) = true := qmark_in_lower s hq
  have hmem : ("?".data) ∈ matchedKeywords confusion_keywords (lowerChars s.data) :=
    List.mem_filter.mpr ⟨by decide, hc⟩
  have hpos : 0 < (matchedKeywords confusion_keywords (lowerChars s.data)).length :=
    List.length_pos.mpr (List.ne_nil_of_mem hmem)
  refine ⟨?_, ?_, ?_⟩
  · have hcond : ¬((emoScored s).all (fun e => e.2.length == 0) = true) := by
      simp only [emoScored, List.all_cons, List.all_nil, Bool.and_eq_true, beq_iff_eq,
        Bool.and_true]
      omega
    rw [detect_emotion_some, if_neg hcond]
    cases hx : argmaxFirst (emoScored s) with
    | none =>
      exact absurd hx (by simp only [emoScored]; exact argmaxFirst_cons_ne_none _ _)
    | some e =>
      have hm := argmaxFirst_mem hx
      simp only [emoScored, List.mem_cons, List.not_mem_nil, or_false] at hm
      rcases hm with rfl | rfl | rfl | rfl
      · exact fun h => absurd (show ("Joy" : String) = "Neutral" from h) (by decide)
      · exact fun h => absurd (show ("Frustration" : String) = "Neutral" from h) (by decide)
      · exact fun h => absurd (show ("Confusion" : String) = "Neutral" from h) (by decide)
      · exact fun h => absurd (show ("Anxiety" : String) = "Neutral" from h) (by decide)
  · intro h0 h1 h3
    rw [detect_emotion_confusion s h0 h1 (Nat.le_of_lt h3)]
  · rw [categorize_post_inquiry s hc]

/-- C10 (witness): the question-mark behavior at a concrete text. -/
theorem claim_C10_witness :
    (detect_emotion (some "ok?")).1 ≠ "Neutral" ∧
    (detect_emotion (some "ok?")).1 = "Confusion" ∧
    (categorize_post (some "ok?")).1 = "Inquiry" :=
  ⟨(claim_C10 "ok?" (by decide)).1,
   (claim_C10 "ok?" (by decide)).2.1 (by decide) (by decide) (by decide),
   (claim_C10 "ok?" (by decide)).2.2⟩
